import Mathlib

/-!
Verification development for the parallel JavaScript near-duplicate
detection engine (`src/utils/parallel_similarity_analyzer.py`).

The Python source is shallowly embedded: documents are `List Char`
contents keyed by `String` paths, feature extraction and the similarity
metrics are pure Lean functions, and the two parallel fan-out/fan-in
phases are modelled by an explicit result-collection order (a
permutation of the input list), which captures exactly the
nondeterminism of `concurrent.futures.as_completed`.

Numeric conventions: Python floats are idealised as exact arithmetic.
All quantities except the structural cosine are rational (ℚ); the
cosine involves square roots, so the composite scores live in ℝ.
The md5 content digest is modelled as an injective digest, i.e. as the
normalized text itself; every claim uses only equality of digests.
-/

set_option maxHeartbeats 2000000
set_option maxRecDepth 8000

namespace JsDedup

/-! ### difflib.SequenceMatcher model

`calculate_content_similarity` calls
`difflib.SequenceMatcher(None, content1, content2).ratio()`.
The following is a translation of CPython `difflib` for `isjunk=None`:
`b2j` maps an element of `b` to its ascending list of positions,
with "popular" elements (autojunk: `len(b) >= 200` and count
`> len(b)//100 + 1`) removed; `bjunk` is empty because `isjunk` is
`None`, so the two junk-extension loops of `find_longest_match` never
fire and the two non-junk extension loops have a trivially true junk
test. `ratio` is `2*M/T` where `M` sums the sizes of all matching
blocks found by the recursive longest-match decomposition and
`T = len(a) + len(b)` (`1.0` when `T = 0`). -/

/-- Ascending positions of `c` in `b` (CPython builds `b2j` by
`enumerate(b)` and appending each index). -/
def charPositions (b : List Char) (c : Char) : List Nat :=
  (b.enum.filter (fun p => p.2 == c)).map Prod.fst

/-- `b2j` with autojunk: popular elements of `b` are dropped. -/
def b2jList (b : List Char) (c : Char) : List Nat :=
  if 200 ≤ b.length ∧ b.length / 100 + 1 < b.count c then []
  else charPositions b c

/-- A matching block `(i, j, size)`, as difflib's `Match` triple. -/
structure Match3 where
  i : Nat
  j : Nat
  size : Nat
deriving DecidableEq

/-- `j2len.get(j, 0)` on the previous-row association list. -/
def j2get (l : List (Nat × Nat)) (j : Nat) : Nat :=
  ((l.find? (fun p => p.1 == j)).map Prod.snd).getD 0

/-- Inner loop of `find_longest_match` over `b2j[a[i]]`: `continue` on
`j < blo`, `break` on `j >= bhi`, otherwise extend the diagonal run
ending at `(i, j)` and update the strictly-better best triple. -/
def flmScanJ (i blo bhi : Nat) (j2len : List (Nat × Nat)) :
    List Nat → List (Nat × Nat) → Match3 → List (Nat × Nat) × Match3
  | [], newj2len, best => (newj2len, best)
  | j :: js, newj2len, best =>
    if j < blo then flmScanJ i blo bhi j2len js newj2len best
    else if bhi ≤ j then (newj2len, best)
    else
      let k := (if j = 0 then 0 else j2get j2len (j - 1)) + 1
      let best1 := if best.size < k then ⟨i + 1 - k, j + 1 - k, k⟩ else best
      flmScanJ i blo bhi j2len js ((j, k) :: newj2len) best1

/-- Outer loop of `find_longest_match` over `i ∈ [alo, ahi)`. -/
def flmScanI (a : List Char) (b2jf : Char → List Nat) (blo bhi : Nat) :
    List Nat → List (Nat × Nat) → Match3 → Match3
  | [], _, best => best
  | i :: is', j2len, best =>
    let r := flmScanJ i blo bhi j2len (b2jf (a.getD i ' ')) [] best
    flmScanI a b2jf blo bhi is' r.1 r.2

/-- Leftward extension loop (`bjunk` is empty, so its junk test is
trivially true and the junk variant of the loop never fires). -/
def extendLeft (a b : List Char) (alo blo : Nat) (m : Match3) : Match3 :=
  if h : alo < m.i ∧ blo < m.j ∧ a.getD (m.i - 1) ' ' = b.getD (m.j - 1) ' ' then
    extendLeft a b alo blo ⟨m.i - 1, m.j - 1, m.size + 1⟩
  else m
termination_by m.i
decreasing_by omega

/-- Rightward extension loop. -/
def extendRight (a b : List Char) (ahi bhi : Nat) (m : Match3) : Match3 :=
  if h : m.i + m.size < ahi ∧ m.j + m.size < bhi ∧
      a.getD (m.i + m.size) ' ' = b.getD (m.j + m.size) ' ' then
    extendRight a b ahi bhi ⟨m.i, m.j, m.size + 1⟩
  else m
termination_by ahi - (m.i + m.size)
decreasing_by omega

/-- `find_longest_match(alo, ahi, blo, bhi)`. -/
def find_longest_match (a b : List Char) (b2jf : Char → List Nat)
    (alo ahi blo bhi : Nat) : Match3 :=
  let best := flmScanI a b2jf blo bhi (List.range' alo (ahi - alo)) [] ⟨alo, blo, 0⟩
  extendRight a b ahi bhi (extendLeft a b alo blo best)

/-- Sum of the sizes of all matching blocks: the queue recursion of
`get_matching_blocks`, which recurses left of and right of each
nonempty longest match.  Adjacent-block merging and the final
`(la, lb, 0)` sentinel do not change the sum.  The fuel argument only
serves termination; `la + lb + 1` strictly bounds the recursion
depth. -/
def matchesFrom (a b : List Char) (b2jf : Char → List Nat) :
    Nat → Nat → Nat → Nat → Nat → Nat
  | 0, _, _, _, _ => 0
  | fuel + 1, alo, ahi, blo, bhi =>
    let m := find_longest_match a b b2jf alo ahi blo bhi
    if m.size = 0 then 0
    else
      m.size
        + (if alo < m.i ∧ blo < m.j then
            matchesFrom a b b2jf fuel alo m.i blo m.j else 0)
        + (if m.i + m.size < ahi ∧ m.j + m.size < bhi then
            matchesFrom a b b2jf fuel (m.i + m.size) ahi (m.j + m.size) bhi else 0)

/-- `sum(size for block in get_matching_blocks())` over the full ranges. -/
def totalMatches (a b : List Char) : Nat :=
  matchesFrom a b (b2jList b) (a.length + b.length + 1) 0 a.length 0 b.length

/-- `SequenceMatcher(None, a, b).ratio()`: `2*M/T`, and `1.0` for two
empty sequences. -/
def seqRatio (a b : List Char) : ℚ :=
  if a.length + b.length = 0 then 1
  else 2 * (totalMatches a b : ℚ) / ((a.length : ℚ) + (b.length : ℚ))

/-! ### FastJavaScriptAnalyzer: regex scans and normalization

Each compiled pattern of the source is translated as a deterministic
matcher (all the patterns are backtracking-free: every greedy
subpattern is followed by a disjoint character class), scanned
non-overlapping left-to-right exactly as `re.findall`, per the ASCII
fragment of Python's `\w` and `\s`. -/

/-- ASCII `\w`. -/
def isWordChar (c : Char) : Bool := c.isAlphanum || c == '_'

/-- ASCII `\s`: space, tab, newline, carriage return, vertical tab, form feed. -/
def isSpaceChar (c : Char) : Bool :=
  c == ' ' || c == '\t' || c == '\n' || c == '\r' || c == '\x0b' || c == '\x0c'

/-- `[a-f0-9]`. -/
def isHexLower (c : Char) : Bool := ('a' ≤ c && c ≤ 'f') || ('0' ≤ c && c ≤ '9')

/-- `["\']`. -/
def isQuoteChar (c : Char) : Bool := c == '"' || c == '\''

/-- Match a literal, returning the remainder. -/
def matchLit (kw : List Char) (s : List Char) : Option (List Char) :=
  if kw.isPrefixOf s then some (s.drop kw.length) else none

/-- Greedy `p+`, returning the (nonempty) capture and the remainder. -/
def matchPlus (p : Char → Bool) (s : List Char) : Option (List Char × List Char) :=
  if (s.takeWhile p).isEmpty then none else some (s.takeWhile p, s.dropWhile p)

/-- Greedy `p*`. -/
def matchStar (p : Char → Bool) (s : List Char) : List Char := s.dropWhile p

/-- A single character of class `p`. -/
def matchCharC (p : Char → Bool) : List Char → Option (List Char)
  | [] => none
  | c :: rest => if p c then some rest else none

/-- `function\s+(\w+)\s*\([^)]*\)\s*{` at the head of `s`. -/
def matchFunctionAt (s : List Char) : Option (String × List Char) := do
  let s1 ← matchLit "function".toList s
  let (_, s2) ← matchPlus isSpaceChar s1
  let (name, s3) ← matchPlus isWordChar s2
  let s4 ← matchCharC (· == '(') (matchStar isSpaceChar s3)
  let s5 ← matchCharC (· == ')') (s4.dropWhile (· != ')'))
  let s6 ← matchCharC (· == '{') (matchStar isSpaceChar s5)
  return (String.mk name, s6)

/-- `(?:var|let|const)\s+(\w+)` at the head of `s` (alternatives tried
in the pattern's order). -/
def matchVariableAt (s : List Char) : Option (String × List Char) :=
  let kwTry (kw : String) : Option (String × List Char) := do
    let s1 ← matchLit kw.toList s
    let (_, s2) ← matchPlus isSpaceChar s1
    let (name, s3) ← matchPlus isWordChar s2
    return (String.mk name, s3)
  kwTry "var" <|> kwTry "let" <|> kwTry "const"

/-- `(?:import|require)\s*\(["\']([^"\']+)["\']` at the head of `s`. -/
def matchImportAt (s : List Char) : Option (String × List Char) :=
  let kwTry (kw : String) : Option (String × List Char) := do
    let s1 ← matchLit kw.toList s
    let s2 ← matchCharC (· == '(') (matchStar isSpaceChar s1)
    let s3 ← matchCharC isQuoteChar s2
    let (spec, s4) ← matchPlus (fun c => !(isQuoteChar c)) s3
    let s5 ← matchCharC isQuoteChar s4
    return (String.mk spec, s5)
  kwTry "import" <|> kwTry "require"

/-- `"([a-f0-9]+)":\s*function\s*\([^)]*\)` at the head of `s`. -/
def matchWebpackAt (s : List Char) : Option (String × List Char) := do
  let s1 ← matchCharC (· == '"') s
  let (mid, s2) ← matchPlus isHexLower s1
  let s3 ← matchCharC (· == '"') s2
  let s4 ← matchCharC (· == ':') s3
  let s5 ← matchLit "function".toList (matchStar isSpaceChar s4)
  let s6 ← matchCharC (· == '(') (matchStar isSpaceChar s5)
  let s7 ← matchCharC (· == ')') (s6.dropWhile (· != ')'))
  return (String.mk mid, s7)

/-- `re.findall`: non-overlapping leftmost matches; on failure advance
one position.  Every pattern above consumes at least one character, so
fuel `s.length` suffices. -/
def scanList (m : List Char → Option (String × List Char)) :
    Nat → List Char → List String
  | 0, _ => []
  | _, [] => []
  | fuel + 1, c :: rest =>
    match m (c :: rest) with
    | some (x, after) => x :: scanList m fuel after
    | none => scanList m fuel rest

def findallFunctions (content : List Char) : List String :=
  scanList matchFunctionAt content.length content

def findallVariables (content : List Char) : List String :=
  scanList matchVariableAt content.length content

def findallImports (content : List Char) : List String :=
  scanList matchImportAt content.length content

def findallWebpack (content : List Char) : List String :=
  scanList matchWebpackAt content.length content

/-! Structural patterns.  A matcher here receives whether the previous
character is a word character (for `\b`) and reports whether the last
character it consumed is one. -/

/-- `\bKW\s*C` (for `\bif\s*\(` and the like): the keyword starts with
a word character, so `\b` demands a non-word (or absent) predecessor. -/
def matchKwThen (kw : String) (endCh : Char) (prevWord : Bool) (s : List Char) :
    Option (List Char × Bool) :=
  if prevWord then none else do
    let s1 ← matchLit kw.toList s
    let s2 ← matchCharC (· == endCh) (matchStar isSpaceChar s1)
    return (s2, isWordChar endCh)

/-- `O[^C]*C` (object and array literal patterns). -/
def matchBracketed (openCh closeCh : Char) (_prevWord : Bool) (s : List Char) :
    Option (List Char × Bool) := do
  let s1 ← matchCharC (· == openCh) s
  let s2 ← matchCharC (· == closeCh) (s1.dropWhile (· != closeCh))
  return (s2, false)

/-- `=>`. -/
def matchArrow (_prevWord : Bool) (s : List Char) : Option (List Char × Bool) := do
  let s1 ← matchLit "=>".toList s
  return (s1, false)

/-- `\b(async|await)\b`. -/
def matchAsyncAwait (prevWord : Bool) (s : List Char) : Option (List Char × Bool) :=
  if prevWord then none else
    let fin : List Char → Option (List Char × Bool)
      | [] => some ([], true)
      | c :: rest => if isWordChar c then none else some (c :: rest, true)
    (do fin (← matchLit "async".toList s)) <|> (do fin (← matchLit "await".toList s))

/-- `len(pattern.findall(content))` for the boundary-aware patterns. -/
def scanCount (m : Bool → List Char → Option (List Char × Bool)) :
    Nat → Bool → List Char → Nat
  | 0, _, _ => 0
  | _, _, [] => 0
  | fuel + 1, prevWord, c :: rest =>
    match m prevWord (c :: rest) with
    | some (after, lw) => 1 + scanCount m fuel lw after
    | none => scanCount m fuel (isWordChar c) rest

/-- The `structure_counts` dict, in the source's insertion order. -/
def structureCounts (content : List Char) : List (String × Nat) :=
  let cnt (m : Bool → List Char → Option (List Char × Bool)) : Nat :=
    scanCount m content.length false content
  [("if_statements", cnt (matchKwThen "if" '(')),
   ("for_loops", cnt (matchKwThen "for" '(')),
   ("while_loops", cnt (matchKwThen "while" '(')),
   ("try_catch", cnt (matchKwThen "try" '{')),
   ("object_literals", cnt (matchBracketed '{' '}')),
   ("array_literals", cnt (matchBracketed '[' ']')),
   ("arrow_functions", cnt matchArrow),
   ("async_await", cnt matchAsyncAwait)]

/-! Normalization: `comment_pattern.sub('', content)` then
`whitespace_pattern.sub(' ', ...)` then `.strip()`.  With
`re.MULTILINE | re.DOTALL`, `//.*$` greedily swallows everything to
the end of the string; `/\*.*?\*/` ends at the first `*/`; an
unterminated `/*` does not match and the scan resumes one character
later. -/

/-- Position after the first `*/`, if any. -/
def findBlockCommentEnd : Nat → List Char → Option (List Char)
  | 0, _ => none
  | _, [] => none
  | _, [_] => none
  | fuel + 1, c :: d :: rest =>
    if c = '*' ∧ d = '/' then some rest
    else findBlockCommentEnd fuel (d :: rest)

/-- `comment_pattern.sub('', s)`. -/
def stripComments : Nat → List Char → List Char
  | 0, s => s
  | _, [] => []
  | fuel + 1, c :: rest =>
    if c = '/' ∧ rest.head? = some '/' then []
    else if c = '/' ∧ rest.head? = some '*' then
      match findBlockCommentEnd rest.length rest with
      | some rest' => stripComments fuel rest'
      | none => c :: stripComments fuel rest
    else c :: stripComments fuel rest

/-- `whitespace_pattern.sub(' ', s)`. -/
def collapseWs : Nat → List Char → List Char
  | 0, s => s
  | _, [] => []
  | fuel + 1, c :: rest =>
    if isSpaceChar c then ' ' :: collapseWs fuel (rest.dropWhile isSpaceChar)
    else c :: collapseWs fuel rest

/-- `.strip()`. -/
def stripWs (s : List Char) : List Char :=
  ((s.dropWhile isSpaceChar).reverse.dropWhile isSpaceChar).reverse

/-- The normalized content used for digesting and content similarity. -/
def normalizeContent (content : List Char) : List Char :=
  let noComments := stripComments content.length content
  stripWs (collapseWs noComments.length noComments)

/-! ### Feature records -/

/-- The feature dict produced by `FastJavaScriptAnalyzer.extract_features`.
`content_hash` is the md5 digest of the normalized content; the digest
is modelled as an injective function, i.e. as the normalized text
itself (all uses in the analyzer are digest equality tests). -/
structure Features where
  functions : Finset String
  variables' : Finset String
  imports : Finset String
  webpack_modules : Finset String
  structure_counts : List (String × Nat)
  content_hash : List Char
  normalized_content : List Char
  file_size : Nat
  line_count : Nat
deriving DecidableEq

instance : Inhabited Features :=
  ⟨⟨∅, ∅, ∅, ∅, [], [], [], 0, 0⟩⟩

/-- `FastJavaScriptAnalyzer.extract_features`. -/
def extract_features (content : List Char) : Features :=
  let normalized := normalizeContent content
  { functions := (findallFunctions content).toFinset
    variables' := (findallVariables content).toFinset
    imports := (findallImports content).toFinset
    webpack_modules := (findallWebpack content).toFinset
    structure_counts := structureCounts content
    content_hash := normalized
    normalized_content := normalized
    file_size := content.length
    line_count := content.count '\n' + 1 }

/-- `extract_file_features` given the loaded content of the file: an
unreadable file loads as `""`, and empty content yields the empty
record marker `{}`, modelled as `none`. -/
def extract_file_features (content : List Char) : Option Features :=
  if content.isEmpty then none else some (extract_features content)

/-! ### Pairwise similarity scoring

The structural cosine involves a square root, so the composite scores
live in ℝ and the scorer is noncomputable; every other quantity is
exact rational arithmetic. -/

/-- The `SimilarityResult` dataclass.  The `similarity_reasons` strings
are modelled as fixed tags (the source interpolates the scores into
Chinese text; no claim depends on the wording). -/
structure SimilarityResult where
  file1 : String
  file2 : String
  overall_similarity : ℝ
  structural_similarity : ℝ
  content_similarity : ℝ
  function_similarity : ℝ
  variable_similarity : ℝ
  is_duplicate : Bool
  similarity_reasons : List String

/-- `dict.get(key, 0)` on a `structure_counts` association list. -/
def dictGet (d : List (String × Nat)) (k : String) : Nat :=
  ((d.find? (fun p => p.1 == k)).map Prod.snd).getD 0

/-- `calculate_content_similarity`: 0.0 when either normalized text is
empty; when either normalized text is longer than 10000 both are cut
to `min(1000, len1, len2)` characters; then the SequenceMatcher
ratio. -/
def calculate_content_similarity (f1 f2 : Features) : ℚ :=
  let content1 := f1.normalized_content
  let content2 := f2.normalized_content
  if content1.isEmpty ∨ content2.isEmpty then 0
  else if 10000 < content1.length ∨ 10000 < content2.length then
    let sample_size := min 1000 (min content1.length content2.length)
    seqRatio (content1.take sample_size) (content2.take sample_size)
  else seqRatio content1 content2

/-- `calculate_structural_similarity`: cosine similarity of the two
count dicts over the union of their keys (`** 0.5` is the square
root, hence ℝ). -/
noncomputable def calculate_structural_similarity (f1 f2 : Features) : ℝ :=
  let struct1 := f1.structure_counts
  let struct2 := f2.structure_counts
  if struct1.isEmpty ∧ struct2.isEmpty then 1
  else if struct1.isEmpty ∨ struct2.isEmpty then 0
  else
    let all_keys : Finset String :=
      (struct1.map Prod.fst).toFinset ∪ (struct2.map Prod.fst).toFinset
    let dot_product : ℕ := ∑ key ∈ all_keys, dictGet struct1 key * dictGet struct2 key
    let norm1 : ℝ := Real.sqrt ((∑ key ∈ all_keys, dictGet struct1 key ^ 2 : ℕ) : ℝ)
    let norm2 : ℝ := Real.sqrt ((∑ key ∈ all_keys, dictGet struct2 key ^ 2 : ℕ) : ℝ)
    if norm1 = 0 ∨ norm2 = 0 then 0
    else (dot_product : ℝ) / (norm1 * norm2)

/-- `calculate_set_similarity`: 1.0 for two empty sets, 0.0 when
exactly one is empty, otherwise `|s1 ∩ s2| / |s1 ∪ s2|` (guarded by
`union > 0`). -/
def calculate_set_similarity (set1 set2 : Finset String) : ℚ :=
  if set1 = ∅ ∧ set2 = ∅ then 1
  else if set1 = ∅ ∨ set2 = ∅ then 0
  else
    let intersection := (set1 ∩ set2).card
    let union := (set1 ∪ set2).card
    if 0 < union then (intersection : ℚ) / (union : ℚ) else 0

/-- `min(size1, size2) / max(size1, size2)`.  In Python this line
raises `ZeroDivisionError` when both sizes are 0; in ℚ the quotient
`0 / 0` is 0.  Claim C10 shows the state is unreachable: both features
come from nonempty content, so `max > 0` whenever the line runs. -/
def sizeRatio (f1 f2 : Features) : ℚ :=
  ((min f1.file_size f2.file_size : ℕ) : ℚ) / ((max f1.file_size f2.file_size : ℕ) : ℚ)

/-- `calculate_similarity_pair(args)`: the hash short-circuit, the
size pre-filter, the four component scores, the weighted overall
score, the `0.7 * threshold` pre-screen, the duplicate classification
and the reasons list, in the source's order. -/
noncomputable def calculate_similarity_pair
    (file1 file2 : String) (features1 features2 : Option Features)
    (threshold : ℚ) : Option SimilarityResult :=
  match features1, features2 with
  | none, _ => none
  | some _, none => none
  | some f1, some f2 =>
    if f1.content_hash = f2.content_hash then
      some { file1 := file1, file2 := file2
             overall_similarity := 1, structural_similarity := 1
             content_similarity := 1, function_similarity := 1
             variable_similarity := 1, is_duplicate := true
             similarity_reasons := ["identical content hash"] }
    else if sizeRatio f1 f2 < 1/2 then none
    else
      let content_sim := calculate_content_similarity f1 f2
      let structural_sim := calculate_structural_similarity f1 f2
      let function_sim := calculate_set_similarity f1.functions f2.functions
      let variable_sim := calculate_set_similarity f1.variables' f2.variables'
      let overall_sim : ℝ := (content_sim : ℝ) * (4/10) + structural_sim * (3/10)
        + (function_sim : ℝ) * (15/100) + (variable_sim : ℝ) * (15/100)
      if overall_sim < (threshold : ℝ) * (7/10) then none
      else
        some { file1 := file1, file2 := file2
               overall_similarity := overall_sim
               structural_similarity := structural_sim
               content_similarity := (content_sim : ℝ)
               function_similarity := (function_sim : ℝ)
               variable_similarity := (variable_sim : ℝ)
               is_duplicate := decide ((threshold : ℝ) ≤ overall_sim)
               similarity_reasons :=
                 (if (9/10 : ℚ) < content_sim then ["content highly similar"] else [])
                   ++ (if (9/10 : ℝ) < structural_sim then ["structure highly similar"] else [])
                   ++ (if (8/10 : ℚ) < function_sim then ["function names overlap"] else [])
                   ++ (if (8/10 : ℚ) < variable_sim then ["variable names overlap"] else []) }

/-! ### ParallelDeduplicationProcessor pipeline

`process_directory` is modelled on a corpus given as a list of
`(path, loaded content)` pairs.  Worker results are gathered with
`concurrent.futures.as_completed`, whose order is scheduler-dependent;
the model therefore takes the corpus list already in result-collection
order, and run-to-run nondeterminism is quantified as an arbitrary
permutation of that list.  The scoring fan-in order only permutes
`similarity_results`; the model keeps that list in pair-generation
order. -/

/-- Insertion-ordered grouping, as a Python `defaultdict(list)` filled
by iterating a list and appending: keys in first-occurrence order,
each bucket in occurrence order. -/
def dedupFirst {α : Type} [DecidableEq α] : List α → List α
  | [] => []
  | a :: l => a :: dedupFirst (l.filter (fun x => x ≠ a))
termination_by l => l.length
decreasing_by
  simp only [List.length_cons]
  exact Nat.lt_succ_of_le (List.length_filter_le _ _)

def groupPairs {α β : Type} [DecidableEq α] (l : List (α × β)) : List (α × List β) :=
  (dedupFirst (l.map Prod.fst)).map
    (fun k => (k, (l.filter (fun p => p.1 = k)).map Prod.snd))

/-- Phase 1 fan-in: `features_dict` in result-collection order,
keeping only files whose features are nonempty. -/
def featuresDict (files : List (String × List Char)) : List (String × Features) :=
  files.filterMap (fun pc => (extract_file_features pc.2).map (fun f => (pc.1, f)))

/-- Phase 2: `hash_groups`, the content-digest index. -/
def hashGroups (fd : List (String × Features)) : List (List Char × List String) :=
  groupPairs (fd.map (fun pf => (pf.2.content_hash, pf.1)))

/-- `exact_duplicate_groups`: buckets with more than one member. -/
def exactDuplicateGroups (fd : List (String × Features)) : List (List String) :=
  ((hashGroups fd).map Prod.snd).filter (fun g => 1 < g.length)

/-- `unique_files`: `group[0]` of every bucket. -/
def uniqueFiles (fd : List (String × Features)) : List String :=
  ((hashGroups fd).map Prod.snd).map (fun g => g.headI)

/-- `file_pairs`: the ordered pairs `(i, j)` with `i < j`. -/
def orderedPairs {α : Type} : List α → List (α × α)
  | [] => []
  | x :: rest => rest.map (fun y => (x, y)) ++ orderedPairs rest

/-- `features_dict[p]`. -/
def lookupFeatures (fd : List (String × Features)) (p : String) : Option Features :=
  (fd.find? (fun q => q.1 == p)).map Prod.snd

/-- Phase 3: `similarity_results` (the non-`None` scores). -/
noncomputable def similarityResults (fd : List (String × Features)) (threshold : ℚ) :
    List SimilarityResult :=
  (orderedPairs (uniqueFiles fd)).filterMap
    (fun pq => calculate_similarity_pair pq.1 pq.2
      (lookupFeatures fd pq.1) (lookupFeatures fd pq.2) threshold)

/-- `find` of `_build_similarity_groups`.  The source's recursive find
performs path compression; compression only re-points nodes at their
root and never changes the root returned, so the model chases parent
links without rewriting them.  Each union adds at most one link, so
chains are shorter than `|unique| + |results| + 1` and the fuel never
runs out. -/
def ufFind (parent : List (String × String)) : Nat → String → String
  | 0, x => x
  | fuel + 1, x =>
    let px := ((parent.find? (fun q => q.1 == x)).map Prod.snd).getD x
    if px = x then x else ufFind parent fuel px

/-- `union`: `parent[find(x)] = find(y)` when the roots differ
(the cons shadows the previous binding of the root). -/
def ufUnion (parent : List (String × String)) (fuel : Nat) (x y : String) :
    List (String × String) :=
  let px := ufFind parent fuel x
  let py := ufFind parent fuel y
  if px = py then parent else (px, py) :: parent

/-- `_build_similarity_groups`: union the endpoints of every
duplicate-classified result, then group the unique files by their
root and keep the groups with more than one member. -/
def buildSimilarityGroups (results : List SimilarityResult) (uf : List String) :
    List (List String) :=
  let fuel := uf.length + results.length + 1
  let parent0 := uf.map (fun f => (f, f))
  let parent := results.foldl
    (fun par r => if r.is_duplicate then ufUnion par fuel r.file1 r.file2 else par)
    parent0
  let groups := groupPairs (uf.map (fun f => (ufFind parent fuel f, f)))
  (groups.map Prod.snd).filter (fun g => 1 < g.length)

/-- `similar_groups` of a run. -/
noncomputable def similarGroups (fd : List (String × Features)) (threshold : ℚ) :
    List (List String) :=
  buildSimilarityGroups (similarityResults fd threshold) (uniqueFiles fd)

/-- `_generate_output`: all members of exact and similar groups
(`all_duplicates`). -/
def allDuplicates (exact_groups similar_groups : List (List String)) : List String :=
  (exact_groups ++ similar_groups).flatten

/-- `_generate_output`: membership of the `unique/` destination, the
discovered files that are in no group.  (File copying and the JSON
serialization are I/O and are modelled by membership only.) -/
def uniqueOutput (all_files : List String) (exact_groups similar_groups : List (List String)) :
    List String :=
  all_files.filter (fun f => !((allDuplicates exact_groups similar_groups).contains f))

example : (extract_features "if (x) \x7b var aa = 1 \x7d".toList).variables' = {"aa"} := by
  with_unfolding_all decide
example : (extract_features "if (x) \x7b var aa = 1 \x7d".toList).functions = ∅ := by
  with_unfolding_all decide
example : (extract_features "if (x) \x7b var aa = 1 \x7d".toList).structure_counts =
    [("if_statements", 1), ("for_loops", 0), ("while_loops", 0), ("try_catch", 0),
     ("object_literals", 1), ("array_literals", 0), ("arrow_functions", 0),
     ("async_await", 0)] := by with_unfolding_all decide
example : (extract_features ("if (x) \x7b var aa = 1 \x7d".toList ++ List.replicate 30 ' ')).content_hash
    = "if (x) \x7b var aa = 1 \x7d".toList := by with_unfolding_all decide
example : (extract_features "a          ".toList).content_hash = ['a'] := by
  with_unfolding_all decide
example : (extract_features "a//b\nc".toList).normalized_content = ['a'] := by
  with_unfolding_all decide
example : (extract_features "a/*x*/b/*y".toList).normalized_content = "ab/*y".toList := by
  with_unfolding_all decide
example : (extract_features "function foo(a, b) \x7b return a \x7d".toList).functions
    = {"foo"} := by with_unfolding_all decide
example : (extract_features "async () => await f([1, 2])".toList).structure_counts =
    [("if_statements", 0), ("for_loops", 0), ("while_loops", 0), ("try_catch", 0),
     ("object_literals", 0), ("array_literals", 1), ("arrow_functions", 1),
     ("async_await", 2)] := by with_unfolding_all decide
example : extract_file_features [] = none := by with_unfolding_all decide

example : seqRatio "abcd".toList "cdabzcd".toList = 8 / 11 := by with_unfolding_all decide
example : seqRatio "cdabzcd".toList "abcd".toList = 4 / 11 := by with_unfolding_all decide
example : seqRatio "if (x) \x7b var aa = 1 \x7d".toList
    "if (x) \x7b var aa = 2 \x7d".toList = 20 / 21 := by with_unfolding_all decide
example : seqRatio "ab".toList "zz".toList = 0 := by with_unfolding_all decide
example : seqRatio [] [] = 1 := by with_unfolding_all decide

/-! ### Concrete documents used in witnesses and counterexamples

`contentA` and `contentC` differ in one character; `contentA2` is
`contentA` padded with trailing whitespace, so it has the same
normalized content (hence the same digest) but a larger raw size.
`contentS`/`contentP` are the analogous tiny pair.  `contentW` and
`contentX` trigger the asymmetry of `SequenceMatcher.ratio`. -/

def contentA : List Char := "if (x) \x7b var aa = 1 \x7d".toList
def contentA2 : List Char := contentA ++ List.replicate 30 ' '
def contentC : List Char := "if (x) \x7b var aa = 2 \x7d".toList
def contentW : List Char := "abcd".toList
def contentX : List Char := "cdabzcd".toList
def contentS : List Char := ['a']
def contentP : List Char := 'a' :: List.replicate 10 ' '

def featA : Features := extract_features contentA
def featA2 : Features := extract_features contentA2
def featC : Features := extract_features contentC
def featW : Features := extract_features contentW
def featX : Features := extract_features contentX
def featS : Features := extract_features contentS
def featP : Features := extract_features contentP

/-! ### Helper lemmas on the three paths of `calculate_similarity_pair` -/

/-- The defensive digest check: equal digests short-circuit to the
all-ones result. -/
theorem calcPair_hash_eq (file1 file2 : String) (f1 f2 : Features) (threshold : ℚ)
    (hh : f1.content_hash = f2.content_hash) :
    calculate_similarity_pair file1 file2 (some f1) (some f2) threshold =
      some { file1 := file1, file2 := file2
             overall_similarity := 1, structural_similarity := 1
             content_similarity := 1, function_similarity := 1
             variable_similarity := 1, is_duplicate := true
             similarity_reasons := ["identical content hash"] } := by
  simp only [calculate_similarity_pair]
  rw [if_pos hh]

/-- The size pre-filter: with distinct digests and ratio below `0.5`
the pair is discarded. -/
theorem calcPair_size_filtered (file1 file2 : String) (f1 f2 : Features) (threshold : ℚ)
    (hh : f1.content_hash ≠ f2.content_hash) (hr : sizeRatio f1 f2 < 1/2) :
    calculate_similarity_pair file1 file2 (some f1) (some f2) threshold = none := by
  simp only [calculate_similarity_pair]
  rw [if_neg hh, if_pos hr]

/-- The main scoring path, with the four component values and the
weighted overall score supplied as equations. -/
theorem calcPair_score (file1 file2 : String) (f1 f2 : Features) (threshold : ℚ)
    (csq fsq vsq : ℚ) (ss ov : ℝ)
    (hh : f1.content_hash ≠ f2.content_hash)
    (hr : ¬ sizeRatio f1 f2 < 1/2)
    (hc : calculate_content_similarity f1 f2 = csq)
    (hs : calculate_structural_similarity f1 f2 = ss)
    (hf : calculate_set_similarity f1.functions f2.functions = fsq)
    (hv : calculate_set_similarity f1.variables' f2.variables' = vsq)
    (hov : (csq : ℝ) * (4/10) + ss * (3/10) + (fsq : ℝ) * (15/100) + (vsq : ℝ) * (15/100) = ov)
    (hp : ¬ ov < (threshold : ℝ) * (7/10)) :
    calculate_similarity_pair file1 file2 (some f1) (some f2) threshold =
      some { file1 := file1, file2 := file2
             overall_similarity := ov
             structural_similarity := ss
             content_similarity := (csq : ℝ)
             function_similarity := (fsq : ℝ)
             variable_similarity := (vsq : ℝ)
             is_duplicate := decide ((threshold : ℝ) ≤ ov)
             similarity_reasons :=
               (if (9/10 : ℚ) < csq then ["content highly similar"] else [])
                 ++ (if (9/10 : ℝ) < ss then ["structure highly similar"] else [])
                 ++ (if (8/10 : ℚ) < fsq then ["function names overlap"] else [])
                 ++ (if (8/10 : ℚ) < vsq then ["variable names overlap"] else []) } := by
  simp only [calculate_similarity_pair]
  rw [if_neg hh, if_neg hr, hc, hs, hf, hv, hov]
  rw [if_neg hp]

/-! ### C1: identical digests短-circuit -/

/-- C1: for every pair of candidate feature records whose content
digests are identical, the pairwise scorer returns a SimilarityScore
with `overall_similarity = 1.0` and `duplicate = true` and all four
component scores `1.0`, short-circuiting the component computations,
for any threshold `τ ≤ 1.0`. -/
theorem C1_hash_match_short_circuit (file1 file2 : String) (f1 f2 : Features)
    (threshold : ℚ) (hτ : threshold ≤ 1) (hh : f1.content_hash = f2.content_hash) :
    calculate_similarity_pair file1 file2 (some f1) (some f2) threshold =
      some { file1 := file1, file2 := file2
             overall_similarity := 1, structural_similarity := 1
             content_similarity := 1, function_similarity := 1
             variable_similarity := 1, is_duplicate := true
             similarity_reasons := ["identical content hash"] } :=
  calcPair_hash_eq file1 file2 f1 f2 threshold hh

/-- Witness for C1 at a concrete digest-equal pair (`contentA` and its
whitespace-padded twin `contentA2`). -/
theorem C1_hash_match_short_circuit_witness :
    (8/10 : ℚ) ≤ 1 ∧ featA.content_hash = featA2.content_hash ∧
    calculate_similarity_pair "a.js" "a2.js" (some featA) (some featA2) (8/10) =
      some { file1 := "a.js", file2 := "a2.js"
             overall_similarity := 1, structural_similarity := 1
             content_similarity := 1, function_similarity := 1
             variable_similarity := 1, is_duplicate := true
             similarity_reasons := ["identical content hash"] } :=
  ⟨by norm_num, by with_unfolding_all decide,
    C1_hash_match_short_circuit "a.js" "a2.js" featA featA2 (8/10) (by norm_num)
      (by with_unfolding_all decide)⟩

/-! ### C2: the size pre-filter -/

/-- C2, counterexample to the claim as stated: a pair of candidate
feature records with size ratio `< 0.5` for which the scorer DOES
produce a SimilarityScore (which then lands in the similarity report's
`similarity_details`, as `is_duplicate = true`).  `contentS` is `"a"`
and `contentP` is `"a"` plus ten spaces: whitespace is collapsed away
by normalization, so the digests coincide (sizes 1 and 11, ratio
`1/11 < 0.5`), and the digest short-circuit precedes the size
pre-filter. -/
theorem C2_size_prefilter_counterexample :
    sizeRatio featS featP < 1/2 ∧
    calculate_similarity_pair "s.js" "p.js" (some featS) (some featP) (8/10) ≠ none := by
  constructor
  · with_unfolding_all decide
  · rw [calcPair_hash_eq "s.js" "p.js" featS featP (8/10) (by with_unfolding_all decide)]
    simp

/-- C2, amended: for every pair of candidate feature records with
DISTINCT content digests and size ratio `< 0.5`, the scorer produces
no SimilarityScore; pairs with identical digests instead return the
exact-match score.  (In the pipeline the candidate list holds one
representative per digest bucket, so scored candidate pairs always
have distinct digests.) -/
theorem C2_size_prefilter_amended (file1 file2 : String) (f1 f2 : Features)
    (threshold : ℚ) (hh : f1.content_hash ≠ f2.content_hash)
    (hr : sizeRatio f1 f2 < 1/2) :
    calculate_similarity_pair file1 file2 (some f1) (some f2) threshold = none :=
  calcPair_size_filtered file1 file2 f1 f2 threshold hh hr

/-- Witness for the amended C2: `contentS` (size 1) against `contentA`
(size 21), distinct digests, ratio `1/21 < 0.5`. -/
theorem C2_size_prefilter_amended_witness :
    featS.content_hash ≠ featA.content_hash ∧ sizeRatio featS featA < 1/2 ∧
    calculate_similarity_pair "s.js" "a.js" (some featS) (some featA) (8/10) = none :=
  ⟨by with_unfolding_all decide, by with_unfolding_all decide,
    C2_size_prefilter_amended "s.js" "a.js" featS featA (8/10)
      (by with_unfolding_all decide) (by with_unfolding_all decide)⟩

/-! ### C5: set similarity is the Jaccard index -/

/-- The Jaccard index as the spec words it: intersection size over
union size, `1.0` for two empty sets, `0.0` when exactly one is
empty. -/
def jaccardSpec (s1 s2 : Finset String) : ℚ :=
  if s1 = ∅ ∧ s2 = ∅ then 1
  else if s1 = ∅ ∨ s2 = ∅ then 0
  else ((s1 ∩ s2).card : ℚ) / ((s1 ∪ s2).card : ℚ)

/-- C5: function-name similarity and variable-name similarity are both
computed by `calculate_set_similarity` on the respective name sets,
and that function equals the Jaccard index with the spec's two
conventions for empty sets. -/
theorem C5_set_similarity_is_jaccard (set1 set2 : Finset String) :
    calculate_set_similarity set1 set2 = jaccardSpec set1 set2 := by
  unfold calculate_set_similarity jaccardSpec
  by_cases h1 : set1 = ∅ <;> by_cases h2 : set2 = ∅ <;> simp [h1, h2]
  intro hcontra
  exact absurd (Finset.union_eq_empty.mp hcontra).1 h1

/-! ### C10: the size-ratio division is well-defined -/

/-- C10: empty or unreadable content yields the empty feature marker;
a pair with an empty marker is discarded before the size pre-filter;
and any two records that actually reach the pre-filter come from
nonempty content, so `max(size1, size2) > 0` and the division cannot
be a division by zero. -/
theorem C10_size_division_safe :
    (∀ c : List Char, c.isEmpty → extract_file_features c = none) ∧
    (∀ (file1 file2 : String) (features2 : Option Features) (threshold : ℚ),
      calculate_similarity_pair file1 file2 none features2 threshold = none) ∧
    (∀ (file1 file2 : String) (f1 : Features) (threshold : ℚ),
      calculate_similarity_pair file1 file2 (some f1) none threshold = none) ∧
    (∀ (c1 c2 : List Char) (f1 f2 : Features),
      extract_file_features c1 = some f1 → extract_file_features c2 = some f2 →
      0 < max f1.file_size f2.file_size) := by
  refine ⟨?_, ?_, ?_, ?_⟩
  · intro c hc
    simp [extract_file_features, hc]
  · intro file1 file2 features2 threshold
    rfl
  · intro file1 file2 f1 threshold
    rfl
  · intro c1 c2 f1 f2 h1 h2
    unfold extract_file_features at h1
    by_cases hc : c1.isEmpty
    · simp [hc] at h1
    · rw [if_neg hc] at h1
      have hf1 : extract_features c1 = f1 := Option.some_inj.mp h1
      have hsize : f1.file_size = c1.length := by
        rw [← hf1]
        with_unfolding_all rfl
      have hlen : 0 < c1.length := by
        cases c1 with
        | nil => simp at hc
        | cons a l => simp
      have : 0 < f1.file_size := hsize ▸ hlen
      omega

/-- Witness for C10 at concrete content `"a"`. -/
theorem C10_size_division_safe_witness :
    extract_file_features contentS = some featS ∧
    0 < max featS.file_size featS.file_size :=
  ⟨by with_unfolding_all decide,
    C10_size_division_safe.2.2.2 contentS contentS featS featS
      (by with_unfolding_all decide) (by with_unfolding_all decide)⟩

/-! ### Structural-cosine evaluation helpers -/

/-- When the first count vector is all zero (and both dicts nonempty),
the cosine branch returns 0 through the zero-norm guard. -/
theorem structSim_vec_zero (f1 f2 : Features)
    (h1 : f1.structure_counts.isEmpty = false)
    (h2 : f2.structure_counts.isEmpty = false)
    (hz : (∑ key ∈ (f1.structure_counts.map Prod.fst).toFinset ∪
            (f2.structure_counts.map Prod.fst).toFinset,
            dictGet f1.structure_counts key ^ 2) = 0) :
    calculate_structural_similarity f1 f2 = 0 := by
  unfold calculate_structural_similarity
  rw [if_neg (by simp [h1]), if_neg (by simp [h1, h2])]
  rw [if_pos]
  left
  rw [hz]
  simp

/-- When the two count dicts are equal (and nonzero), the cosine is 1. -/
theorem structSim_eq_counts (f1 f2 : Features)
    (h1 : f1.structure_counts.isEmpty = false)
    (heq : f2.structure_counts = f1.structure_counts)
    (hpos : 0 < (∑ key ∈ (f1.structure_counts.map Prod.fst).toFinset,
            dictGet f1.structure_counts key ^ 2)) :
    calculate_structural_similarity f1 f2 = 1 := by
  unfold calculate_structural_similarity
  rw [if_neg (by simp [h1]), if_neg (by simp [h1, heq]), heq]
  rw [Finset.union_self]
  simp only [← pow_two]
  set S : ℕ := ∑ key ∈ (f1.structure_counts.map Prod.fst).toFinset,
    dictGet f1.structure_counts key ^ 2 with hS
  have hsq : Real.sqrt (S : ℝ) ≠ 0 := by
    refine Real.sqrt_ne_zero'.mpr ?_
    exact_mod_cast hpos
  rw [if_neg (by push_neg; exact ⟨hsq, hsq⟩)]
  rw [Real.sq_sqrt (by positivity)]
  rw [div_self (by exact_mod_cast hpos.ne')]

/-! ### C3: the weighted overall score and the duplicate cutoff -/

/-- C3: for every scored pair (distinct digests, size ratio at least
0.5, not pre-screened away), the returned SimilarityScore carries the
four component scores, its overall score is
`0.4*content + 0.3*structural + 0.15*function + 0.15*variable`, and
its duplicate flag is `decide (overall ≥ τ)`, i.e. true iff
`overall ≥ τ`. -/
theorem C3_weighted_score (file1 file2 : String) (f1 f2 : Features) (threshold : ℚ)
    (hh : f1.content_hash ≠ f2.content_hash)
    (hr : ¬ sizeRatio f1 f2 < 1/2)
    (hp : ¬ ((calculate_content_similarity f1 f2 : ℝ) * (4/10)
        + calculate_structural_similarity f1 f2 * (3/10)
        + (calculate_set_similarity f1.functions f2.functions : ℝ) * (15/100)
        + (calculate_set_similarity f1.variables' f2.variables' : ℝ) * (15/100)
        < (threshold : ℝ) * (7/10))) :
    (calculate_similarity_pair file1 file2 (some f1) (some f2) threshold).map
        (fun r => (r.content_similarity, r.structural_similarity, r.function_similarity,
          r.variable_similarity, r.overall_similarity, r.is_duplicate)) =
      some ((calculate_content_similarity f1 f2 : ℝ),
        calculate_structural_similarity f1 f2,
        (calculate_set_similarity f1.functions f2.functions : ℝ),
        (calculate_set_similarity f1.variables' f2.variables' : ℝ),
        (calculate_content_similarity f1 f2 : ℝ) * (4/10)
          + calculate_structural_similarity f1 f2 * (3/10)
          + (calculate_set_similarity f1.functions f2.functions : ℝ) * (15/100)
          + (calculate_set_similarity f1.variables' f2.variables' : ℝ) * (15/100),
        decide ((threshold : ℝ) ≤
          (calculate_content_similarity f1 f2 : ℝ) * (4/10)
          + calculate_structural_similarity f1 f2 * (3/10)
          + (calculate_set_similarity f1.functions f2.functions : ℝ) * (15/100)
          + (calculate_set_similarity f1.variables' f2.variables' : ℝ) * (15/100))) := by
  rw [calcPair_score file1 file2 f1 f2 threshold
    (calculate_content_similarity f1 f2)
    (calculate_set_similarity f1.functions f2.functions)
    (calculate_set_similarity f1.variables' f2.variables')
    (calculate_structural_similarity f1 f2) _ hh hr rfl rfl rfl rfl rfl hp]
  rfl

/-- Witness for C3 at the concrete pair `contentW`/`contentX` with
`τ = 1/2`:  content `8/11`, structural `0`, function and variable
`1`, so the overall score is `13/22 ≥ 0.35` and the pair is scored. -/
theorem C3_weighted_score_witness :
    (calculate_similarity_pair "w.js" "x.js" (some featW) (some featX) (1/2)).map
        (fun r => (r.content_similarity, r.structural_similarity, r.function_similarity,
          r.variable_similarity, r.overall_similarity, r.is_duplicate)) =
      some ((calculate_content_similarity featW featX : ℝ),
        calculate_structural_similarity featW featX,
        (calculate_set_similarity featW.functions featX.functions : ℝ),
        (calculate_set_similarity featW.variables' featX.variables' : ℝ),
        (calculate_content_similarity featW featX : ℝ) * (4/10)
          + calculate_structural_similarity featW featX * (3/10)
          + (calculate_set_similarity featW.functions featX.functions : ℝ) * (15/100)
          + (calculate_set_similarity featW.variables' featX.variables' : ℝ) * (15/100),
        decide (((1/2 : ℚ) : ℝ) ≤
          (calculate_content_similarity featW featX : ℝ) * (4/10)
          + calculate_structural_similarity featW featX * (3/10)
          + (calculate_set_similarity featW.functions featX.functions : ℝ) * (15/100)
          + (calculate_set_similarity featW.variables' featX.variables' : ℝ) * (15/100))) := by
  refine C3_weighted_score "w.js" "x.js" featW featX (1/2)
    (by with_unfolding_all decide) (by with_unfolding_all decide) ?_
  rw [(by with_unfolding_all decide : calculate_content_similarity featW featX = 8/11),
    structSim_vec_zero featW featX (by with_unfolding_all decide)
      (by with_unfolding_all decide) (by with_unfolding_all decide),
    (by with_unfolding_all decide : calculate_set_similarity featW.functions featX.functions = 1),
    (by with_unfolding_all decide : calculate_set_similarity featW.variables' featX.variables' = 1)]
  push_cast
  norm_num

/-! ### C4: truncation in content similarity -/

/-- The content-similarity computation as claim C4 words it: when
either normalized text exceeds 10000 characters, BOTH texts are
truncated to their first 1000 characters before the alignment. -/
def contentSimilarityClaimC4 (f1 f2 : Features) : ℚ :=
  let content1 := f1.normalized_content
  let content2 := f2.normalized_content
  if content1.isEmpty ∨ content2.isEmpty then 0
  else if 10000 < content1.length ∨ 10000 < content2.length then
    seqRatio (content1.take 1000) (content2.take 1000)
  else seqRatio content1 content2

def contentB : List Char := "ab".toList
def contentBig : List Char := "zzab".toList ++ List.replicate 9997 'a'
def featB : Features := extract_features contentB
def featBig : Features := extract_features contentBig

/-! Evaluation of `featBig` must avoid deep kernel reduction (the
document has 10001 characters), so its normalized content, length and
prefixes are computed by the following structural lemmas rather than
by `decide`. -/

theorem stripComments_no_slash : ∀ (fuel : Nat) (s : List Char),
    (∀ c ∈ s, c ≠ '/') → stripComments fuel s = s := by
  intro fuel
  induction fuel with
  | zero => intro s _; cases s <;> rfl
  | succ n ih =>
    intro s hs
    cases s with
    | nil => rfl
    | cons c rest =>
      have hc : c ≠ '/' := hs c (List.mem_cons_self c rest)
      simp only [stripComments]
      rw [if_neg (by simp [hc]), if_neg (by simp [hc])]
      rw [ih rest (fun d hd => hs d (List.mem_cons_of_mem c hd))]

theorem collapseWs_no_space : ∀ (fuel : Nat) (s : List Char),
    (∀ c ∈ s, isSpaceChar c = false) → collapseWs fuel s = s := by
  intro fuel
  induction fuel with
  | zero => intro s _; cases s <;> rfl
  | succ n ih =>
    intro s hs
    cases s with
    | nil => rfl
    | cons c rest =>
      simp only [collapseWs]
      rw [if_neg (by simp [hs c (List.mem_cons_self c rest)])]
      rw [ih rest (fun d hd => hs d (List.mem_cons_of_mem c hd))]

theorem dropWhile_none {α : Type} (p : α → Bool) (s : List α)
    (h : ∀ c ∈ s, p c = false) : s.dropWhile p = s := by
  cases s with
  | nil => rfl
  | cons c rest => simp [List.dropWhile, h c (List.mem_cons_self c rest)]

theorem stripWs_no_space (s : List Char) (h : ∀ c ∈ s, isSpaceChar c = false) :
    stripWs s = s := by
  unfold stripWs
  rw [dropWhile_none _ _ h,
    dropWhile_none _ _ (fun c hc => h c (List.mem_reverse.mp hc)),
    List.reverse_reverse]

theorem normalizeContent_plain (s : List Char)
    (h1 : ∀ c ∈ s, c ≠ '/') (h2 : ∀ c ∈ s, isSpaceChar c = false) :
    normalizeContent s = s := by
  unfold normalizeContent
  rw [stripComments_no_slash _ _ h1]
  show stripWs (collapseWs s.length s) = s
  rw [collapseWs_no_space _ _ h2]
  exact stripWs_no_space _ h2

theorem contentBig_chars : ∀ c ∈ contentBig, c ≠ '/' ∧ isSpaceChar c = false := by
  intro c hc
  unfold contentBig at hc
  rw [List.mem_append] at hc
  rcases hc with h | h
  · have : "zzab".toList = ['z', 'z', 'a', 'b'] := rfl
    rw [this] at h
    simp only [List.mem_cons, List.not_mem_nil, or_false] at h
    rcases h with rfl | rfl | rfl | rfl <;> exact ⟨by decide, by decide⟩
  · rw [List.eq_of_mem_replicate h]
    exact ⟨by decide, by decide⟩

theorem extract_features_normalized_eq (content : List Char) :
    (extract_features content).normalized_content = normalizeContent content := rfl

theorem featBig_normalized : featBig.normalized_content = contentBig := by
  unfold featBig
  rw [extract_features_normalized_eq]
  exact normalizeContent_plain _ (fun c hc => (contentBig_chars c hc).1)
    (fun c hc => (contentBig_chars c hc).2)

theorem contentBig_length : contentBig.length = 10001 := by
  unfold contentBig
  rw [List.length_append, List.length_replicate]
  rfl

theorem take_replicate_of_le {α : Type} (a : α) : ∀ (m n : Nat), m ≤ n →
    (List.replicate n a).take m = List.replicate m a := by
  intro m
  induction m with
  | zero => simp
  | succ k ih =>
    intro n hn
    cases n with
    | zero => omega
    | succ l => simp [List.replicate_succ, ih l (by omega)]

theorem contentBig_take1000 :
    contentBig.take 1000 = "zzab".toList ++ List.replicate 996 'a' := by
  unfold contentBig
  rw [List.take_append_eq_append_take]
  rw [List.take_of_length_le (by decide)]
  have h4 : "zzab".toList.length = 4 := rfl
  rw [h4]
  rw [take_replicate_of_le _ 996 9997 (by norm_num)]

/-- C4, counterexample to the claim as stated: `contentB` normalizes
to 2 characters and `contentBig` to 10001, so the source truncates
both to `min(1000, 2, 10001) = 2` characters and compares `"ab"` with
`"zz"` (ratio 0), whereas truncating both to their first 1000
characters as the claim states compares `"ab"` with
`"zzab" ++ 996 * "a"` (ratio `2/501 ≠ 0`). -/
theorem C4_truncation_counterexample :
    10000 < featBig.normalized_content.length ∧
    calculate_content_similarity featB featBig = 0 ∧
    contentSimilarityClaimC4 featB featBig = 2/501 ∧
    calculate_content_similarity featB featBig ≠ contentSimilarityClaimC4 featB featBig := by
  have hB : featB.normalized_content = ['a', 'b'] := by with_unfolding_all decide
  have hmin : min 1000 (min (['a', 'b'] : List Char).length contentBig.length) = 2 := by
    rw [contentBig_length]; norm_num
  have hcode : calculate_content_similarity featB featBig = 0 := by
    unfold calculate_content_similarity
    rw [hB, featBig_normalized]
    rw [if_neg (by with_unfolding_all decide), if_pos (Or.inr (by rw [contentBig_length]; norm_num))]
    rw [hmin]
    have htake2 : contentBig.take 2 = ['z', 'z'] := by with_unfolding_all decide
    show seqRatio (List.take 2 ['a', 'b']) (List.take 2 contentBig) = 0
    rw [htake2]
    with_unfolding_all decide
  have hclaim : contentSimilarityClaimC4 featB featBig = 2/501 := by
    unfold contentSimilarityClaimC4
    rw [hB, featBig_normalized]
    rw [if_neg (by with_unfolding_all decide), if_pos (Or.inr (by rw [contentBig_length]; norm_num))]
    rw [List.take_of_length_le (by decide), contentBig_take1000]
    with_unfolding_all decide
  refine ⟨by rw [featBig_normalized, contentBig_length]; norm_num, hcode, hclaim, ?_⟩
  rw [hcode, hclaim]
  norm_num

/-- C4, amended: when either normalized text exceeds 10000
characters, both texts are truncated to their first
`min(1000, len1, len2)` characters (which is 1000 characters only
when both texts have at least 1000) before the alignment ratio is
computed; texts of 10000 characters or fewer are compared in full. -/
theorem C4_truncation_amended (f1 f2 : Features)
    (h1 : f1.normalized_content.isEmpty = false)
    (h2 : f2.normalized_content.isEmpty = false) :
    (10000 < f1.normalized_content.length ∨ 10000 < f2.normalized_content.length →
      calculate_content_similarity f1 f2 =
        seqRatio
          (f1.normalized_content.take
            (min 1000 (min f1.normalized_content.length f2.normalized_content.length)))
          (f2.normalized_content.take
            (min 1000 (min f1.normalized_content.length f2.normalized_content.length)))) ∧
    (¬ (10000 < f1.normalized_content.length ∨ 10000 < f2.normalized_content.length) →
      calculate_content_similarity f1 f2 =
        seqRatio f1.normalized_content f2.normalized_content) := by
  unfold calculate_content_similarity
  rw [if_neg (by simp [h1, h2])]
  constructor <;> intro hbig
  · rw [if_pos hbig]
  · rw [if_neg hbig]

/-- Witness for the amended C4 at the pair `contentB`/`contentBig`
(the truncating branch) and at `contentW`/`contentX` (the full-text
branch). -/
theorem C4_truncation_amended_witness :
    (calculate_content_similarity featB featBig =
      seqRatio
        (featB.normalized_content.take
          (min 1000 (min featB.normalized_content.length featBig.normalized_content.length)))
        (featBig.normalized_content.take
          (min 1000 (min featB.normalized_content.length featBig.normalized_content.length)))) ∧
    (calculate_content_similarity featW featX =
      seqRatio featW.normalized_content featX.normalized_content) :=
  ⟨(C4_truncation_amended featB featBig (by with_unfolding_all decide)
      (by rw [featBig_normalized]; with_unfolding_all decide)).1
      (Or.inr (by rw [featBig_normalized, contentBig_length]; norm_num)),
   (C4_truncation_amended featW featX (by with_unfolding_all decide)
      (by with_unfolding_all decide)).2 (by with_unfolding_all decide)⟩

/-! ### C7: symmetry of the overall score -/

/-- The size ratio is symmetric. -/
theorem sizeRatio_comm (f1 f2 : Features) : sizeRatio f1 f2 = sizeRatio f2 f1 := by
  unfold sizeRatio
  rw [min_comm, max_comm]

/-- Jaccard set similarity is symmetric. -/
theorem setSim_comm (s1 s2 : Finset String) :
    calculate_set_similarity s1 s2 = calculate_set_similarity s2 s1 := by
  by_cases h1 : s1 = ∅ <;> by_cases h2 : s2 = ∅ <;>
    simp [calculate_set_similarity, h1, h2, Finset.inter_comm, Finset.union_comm]

/-- The structural cosine is symmetric. -/
theorem structSim_comm (f1 f2 : Features) :
    calculate_structural_similarity f1 f2 = calculate_structural_similarity f2 f1 := by
  simp only [calculate_structural_similarity]
  by_cases h1 : f1.structure_counts.isEmpty <;> by_cases h2 : f2.structure_counts.isEmpty
  · simp [h1, h2]
  · simp [h1, h2]
  · simp [h1, h2]
  · have h1' : f1.structure_counts.isEmpty = false := by simpa using h1
    have h2' : f2.structure_counts.isEmpty = false := by simpa using h2
    rw [if_neg (show ¬(f1.structure_counts.isEmpty = true ∧
        f2.structure_counts.isEmpty = true) from by simp [h1']),
      if_neg (show ¬(f1.structure_counts.isEmpty = true ∨
        f2.structure_counts.isEmpty = true) from by simp [h1', h2']),
      if_neg (show ¬(f2.structure_counts.isEmpty = true ∧
        f1.structure_counts.isEmpty = true) from by simp [h2']),
      if_neg (show ¬(f2.structure_counts.isEmpty = true ∨
        f1.structure_counts.isEmpty = true) from by simp [h1', h2'])]
    rw [Finset.union_comm ((f2.structure_counts.map Prod.fst).toFinset)
      ((f1.structure_counts.map Prod.fst).toFinset)]
    have hdot : (∑ key ∈ (f1.structure_counts.map Prod.fst).toFinset ∪
        (f2.structure_counts.map Prod.fst).toFinset,
        dictGet f2.structure_counts key * dictGet f1.structure_counts key) =
        (∑ key ∈ (f1.structure_counts.map Prod.fst).toFinset ∪
        (f2.structure_counts.map Prod.fst).toFinset,
        dictGet f1.structure_counts key * dictGet f2.structure_counts key) :=
      Finset.sum_congr rfl (fun k _ => Nat.mul_comm _ _)
    rw [hdot]
    apply if_congr or_comm rfl
    rw [mul_comm]

/-- C7: the overall similarity computed for `(A, B)` equals that for
`(B, A)` PROVIDED the content-alignment ratio is symmetric for this
pair; the digest check, the size ratio, the structural cosine and the
two Jaccard similarities are unconditionally symmetric.  (The content
ratio itself is not symmetric in general — see the counterexample —
which is the one asymmetric ingredient.)  Both orientations discard
the pair or both produce a score, with equal overall values. -/
theorem C7_overall_symmetric_conditional (file1 file2 : String) (f1 f2 : Features)
    (threshold : ℚ)
    (hc : calculate_content_similarity f1 f2 = calculate_content_similarity f2 f1) :
    (calculate_similarity_pair file1 file2 (some f1) (some f2) threshold).map
        (fun r => r.overall_similarity) =
      (calculate_similarity_pair file2 file1 (some f2) (some f1) threshold).map
        (fun r => r.overall_similarity) := by
  simp only [calculate_similarity_pair]
  by_cases hh : f1.content_hash = f2.content_hash
  · rw [if_pos hh, if_pos hh.symm]
    rfl
  · rw [if_neg hh,
      if_neg (show ¬(f2.content_hash = f1.content_hash) from fun e => hh e.symm)]
    by_cases hr : sizeRatio f1 f2 < 1/2
    · rw [if_pos hr, if_pos (sizeRatio_comm f1 f2 ▸ hr)]
    · rw [if_neg hr, if_neg (show ¬(sizeRatio f2 f1 < 1/2) from
        sizeRatio_comm f1 f2 ▸ hr)]
      rw [hc, structSim_comm f1 f2, setSim_comm f1.functions f2.functions,
        setSim_comm f1.variables' f2.variables']
      by_cases hp : (calculate_content_similarity f2 f1 : ℝ) * (4/10)
          + calculate_structural_similarity f2 f1 * (3/10)
          + (calculate_set_similarity f2.functions f1.functions : ℝ) * (15/100)
          + (calculate_set_similarity f2.variables' f1.variables' : ℝ) * (15/100)
          < (threshold : ℝ) * (7/10)
      · rw [if_pos hp, if_pos hp]
      · rw [if_neg hp, if_neg hp]
        rfl

/-- Witness for C7's conditional symmetry at the digest-equal pair
`(featA, featA)` (content similarity is trivially symmetric there). -/
theorem C7_overall_symmetric_conditional_witness :
    (calculate_similarity_pair "a.js" "b.js" (some featA) (some featA) (8/10)).map
        (fun r => r.overall_similarity) =
      (calculate_similarity_pair "b.js" "a.js" (some featA) (some featA) (8/10)).map
        (fun r => r.overall_similarity) :=
  C7_overall_symmetric_conditional "a.js" "b.js" featA featA (8/10) rfl

/-- C7, counterexample to the claim as stated: the normalized contents
`"abcd"` and `"cdabzcd"` have SequenceMatcher ratios `8/11` and `4/11`
depending on orientation, so with `τ = 1/2` the overall scores are
`13/22` and `49/110` — and the two duplicate classifications even
differ (`13/22 ≥ 1/2 > 49/110`). -/
theorem C7_symmetry_counterexample :
    (calculate_similarity_pair "w.js" "x.js" (some featW) (some featX) (1/2)).map
        (fun r => r.overall_similarity) ≠
      (calculate_similarity_pair "x.js" "w.js" (some featX) (some featW) (1/2)).map
        (fun r => r.overall_similarity) := by
  rw [calcPair_score "w.js" "x.js" featW featX (1/2) (8/11) 1 1 0 (13/22)
      (by with_unfolding_all decide) (by with_unfolding_all decide)
      (by with_unfolding_all decide)
      (structSim_vec_zero featW featX (by with_unfolding_all decide)
        (by with_unfolding_all decide) (by with_unfolding_all decide))
      (by with_unfolding_all decide) (by with_unfolding_all decide)
      (by push_cast; norm_num) (by push_cast; norm_num)]
  rw [calcPair_score "x.js" "w.js" featX featW (1/2) (4/11) 1 1 0 (49/110)
      (by with_unfolding_all decide) (by with_unfolding_all decide)
      (by with_unfolding_all decide)
      (structSim_vec_zero featX featW (by with_unfolding_all decide)
        (by with_unfolding_all decide) (by with_unfolding_all decide))
      (by with_unfolding_all decide) (by with_unfolding_all decide)
      (by push_cast; norm_num) (by push_cast; norm_num)]
  intro hcontra
  have h2 : (13/22 : ℝ) = 49/110 := Option.some_inj.mp hcontra
  norm_num at h2

/-! ### Grouping theory: `dedupFirst` and `groupPairs` -/

theorem mem_dedupFirst {α : Type} [DecidableEq α] : ∀ (l : List α) (x : α),
    x ∈ dedupFirst l ↔ x ∈ l
  | [], x => by simp [dedupFirst]
  | a :: l, x => by
    rw [dedupFirst]
    by_cases hxa : x = a
    · subst hxa
      simp
    · simp only [List.mem_cons, hxa, false_or]
      rw [mem_dedupFirst (l.filter (fun y => y ≠ a)) x]
      simp [List.mem_filter, hxa]
termination_by l _ => l.length
decreasing_by
  simp only [List.length_cons]
  exact Nat.lt_succ_of_le (List.length_filter_le _ _)

theorem dedupFirst_nodup {α : Type} [DecidableEq α] : ∀ (l : List α), (dedupFirst l).Nodup
  | [] => by simp [dedupFirst]
  | a :: l => by
    rw [dedupFirst, List.nodup_cons]
    refine ⟨?_, dedupFirst_nodup _⟩
    intro hmem
    have := (List.mem_filter.mp ((mem_dedupFirst _ _).mp hmem)).2
    simp at this
termination_by l => l.length
decreasing_by
  simp only [List.length_cons]
  exact Nat.lt_succ_of_le (List.length_filter_le _ _)

theorem dedupFirst_toFinset {α : Type} [DecidableEq α] (l : List α) :
    (dedupFirst l).toFinset = l.toFinset := by
  ext x
  simp [mem_dedupFirst]

theorem groupPairs_keys {α β : Type} [DecidableEq α] (l : List (α × β)) :
    (groupPairs l).map Prod.fst = dedupFirst (l.map Prod.fst) := by
  simp [groupPairs, List.map_map, Function.comp_def]

theorem mem_groupPairs {α β : Type} [DecidableEq α] {l : List (α × β)} {k : α}
    {g : List β} (h : (k, g) ∈ groupPairs l) :
    k ∈ l.map Prod.fst ∧ g = (l.filter (fun p => p.1 = k)).map Prod.snd := by
  unfold groupPairs at h
  rcases List.mem_map.mp h with ⟨k', hk', heq⟩
  injection heq with h1 h2
  subst h1
  subst h2
  exact ⟨(mem_dedupFirst _ _).mp hk', rfl⟩

/-- The digest bucket of `h` is the paths of the records with digest
`h`, in collection order. -/
theorem hashGroups_bucket (fd : List (String × Features)) (h : List Char) :
    ((fd.map (fun pf => (pf.2.content_hash, pf.1))).filter
      (fun p => p.1 = h)).map Prod.snd =
      (fd.filter (fun pf => pf.2.content_hash = h)).map Prod.fst := by
  induction fd with
  | nil => rfl
  | cons pf rest ih =>
    by_cases hh : pf.2.content_hash = h
    · simp [List.filter_cons, hh, ih]
    · simp [List.filter_cons, hh, ih]

/-! ### C6: the bucket representative -/

/-- C6, amended: the candidate list has exactly one representative per
content-digest bucket (bucket keys are pairwise distinct and every
bucket is nonempty), and the representative is the bucket's FIRST
element in the order the feature-extraction results were collected —
which is the `as_completed` completion order, not file-path order. -/
theorem C6_bucket_representative_amended (fd : List (String × Features)) :
    uniqueFiles fd = ((hashGroups fd).map Prod.snd).map (fun g => g.headI) ∧
    ((hashGroups fd).map Prod.fst).Nodup ∧
    (∀ h g, (h, g) ∈ hashGroups fd →
      g = (fd.filter (fun pf => pf.2.content_hash = h)).map Prod.fst ∧ g ≠ []) := by
  refine ⟨rfl, ?_, ?_⟩
  · rw [show hashGroups fd = groupPairs (fd.map (fun pf => (pf.2.content_hash, pf.1)))
      from rfl, groupPairs_keys]
    exact dedupFirst_nodup _
  · intro h g hmem
    rw [show hashGroups fd = groupPairs (fd.map (fun pf => (pf.2.content_hash, pf.1)))
      from rfl] at hmem
    have hb := mem_groupPairs hmem
    have hg : g = (fd.filter (fun pf => pf.2.content_hash = h)).map Prod.fst := by
      rw [hb.2, hashGroups_bucket]
    refine ⟨hg, ?_⟩
    rw [List.map_map] at hb
    rcases List.mem_map.mp hb.1 with ⟨pf, hpf, hpfh⟩
    have hpfh' : pf.2.content_hash = h := hpfh
    have hmemf : pf ∈ fd.filter (fun pf => pf.2.content_hash = h) :=
      List.mem_filter.mpr ⟨hpf, by simp [hpfh']⟩
    rw [hg]
    intro hnil
    rw [List.map_eq_nil_iff.mp hnil] at hmemf
    exact List.not_mem_nil pf hmemf

/-- Witness for the amended C6 at the two-file corpus collected in the
order `[b.js, a.js]`. -/
def corpusC6collected : List (String × List Char) := [("b.js", ['x']), ("a.js", ['x'])]

def corpusC6walk : List (String × List Char) := [("a.js", ['x']), ("b.js", ['x'])]

theorem C6_bucket_representative_amended_witness :
    (['x'], ["b.js", "a.js"]) ∈ hashGroups (featuresDict corpusC6collected) ∧
    (["b.js", "a.js"] : List String) =
      ((featuresDict corpusC6collected).filter
        (fun pf => pf.2.content_hash = ['x'])).map Prod.fst ∧
    (["b.js", "a.js"] : List String) ≠ [] :=
  ⟨by with_unfolding_all decide,
    (C6_bucket_representative_amended (featuresDict corpusC6collected)).2.2 ['x']
      ["b.js", "a.js"] (by with_unfolding_all decide)⟩

/-- C6, counterexample to the claim as stated: two byte-identical
files whose paths in file-path (and walk) order are
`["a.js", "b.js"]`, but whose extraction results complete in the order
`["b.js", "a.js"]`: the digest bucket is `["b.js", "a.js"]` and the
representative passed to the near-duplicate stage is `"b.js"`, which
is not the first element of the bucket in file-path order. -/
theorem C6_representative_counterexample :
    corpusC6collected.Perm corpusC6walk ∧
    hashGroups (featuresDict corpusC6collected) = [(['x'], ["b.js", "a.js"])] ∧
    uniqueFiles (featuresDict corpusC6collected) = ["b.js"] ∧
    ("b.js" : String) ≠ "a.js" :=
  ⟨by with_unfolding_all decide, by with_unfolding_all decide,
   by with_unfolding_all decide, by with_unfolding_all decide⟩

/-! ### C8: determinism across runs -/

theorem groupPairs_mem_of_key {α β : Type} [DecidableEq α] {l : List (α × β)} {k : α}
    (hk : k ∈ l.map Prod.fst) :
    (k, (l.filter (fun p => p.1 = k)).map Prod.snd) ∈ groupPairs l := by
  unfold groupPairs
  exact List.mem_map_of_mem _ ((mem_dedupFirst _ _).mpr hk)

/-- One direction of run-order invariance of the exact-duplicate
groups, as sets of sets of paths. -/
theorem exactGroups_toFinset_subset (fd1 fd2 : List (String × Features))
    (hperm : fd1.Perm fd2) :
    ∀ S ∈ ((exactDuplicateGroups fd1).map List.toFinset).toFinset,
      S ∈ ((exactDuplicateGroups fd2).map List.toFinset).toFinset := by
  intro S hS
  rw [List.mem_toFinset] at hS
  rcases List.mem_map.mp hS with ⟨g, hg, rfl⟩
  unfold exactDuplicateGroups at hg
  have hg1 := List.mem_filter.mp hg
  rcases List.mem_map.mp hg1.1 with ⟨⟨h, g'⟩, hp, hp2⟩
  have hp2' : g' = g := hp2
  subst hp2'
  have hb := mem_groupPairs hp
  have hgf : g' = (fd1.filter (fun pf => pf.2.content_hash = h)).map Prod.fst := by
    rw [hb.2, hashGroups_bucket]
  have hkey2 : h ∈ (fd2.map (fun pf => (pf.2.content_hash, pf.1))).map Prod.fst := by
    rw [List.map_map]
    rw [List.map_map] at hb
    exact (hperm.map _).mem_iff.mp hb.1
  have hmem2 : (h, (fd2.filter (fun pf => pf.2.content_hash = h)).map Prod.fst) ∈
      hashGroups fd2 := by
    have := groupPairs_mem_of_key (l := fd2.map (fun pf => (pf.2.content_hash, pf.1))) hkey2
    rw [hashGroups_bucket] at this
    exact this
  have hpermg : g'.Perm ((fd2.filter (fun pf => pf.2.content_hash = h)).map Prod.fst) := by
    rw [hgf]
    exact (hperm.filter _).map _
  rw [List.mem_toFinset]
  refine List.mem_map.mpr ⟨(fd2.filter (fun pf => pf.2.content_hash = h)).map Prod.fst,
    ?_, (List.toFinset_eq_of_perm _ _ hpermg).symm⟩
  unfold exactDuplicateGroups
  refine List.mem_filter.mpr ⟨List.mem_map.mpr ⟨_, hmem2, rfl⟩, ?_⟩
  have hlen : g'.length =
      ((fd2.filter (fun pf => pf.2.content_hash = h)).map Prod.fst).length :=
    hpermg.length_eq
  rw [← hlen]
  exact hg1.2

/-- C8, amended (invariance part): for a fixed corpus the
exact-duplicate groups, compared as a set of sets of paths, are the
same for any two collection orders of the feature-extraction phase.
(Similar-group membership is NOT invariant — see the counterexample —
because the bucket representative that enters the pairwise stage
depends on the collection order.) -/
theorem C8_exact_groups_invariant (fd1 fd2 : List (String × Features))
    (hperm : fd1.Perm fd2) :
    ((exactDuplicateGroups fd1).map List.toFinset).toFinset =
      ((exactDuplicateGroups fd2).map List.toFinset).toFinset :=
  Finset.Subset.antisymm
    (fun S hS => exactGroups_toFinset_subset fd1 fd2 hperm S hS)
    (fun S hS => exactGroups_toFinset_subset fd2 fd1 hperm.symm S hS)

/-! Concrete two-run corpus for the C8/C9 counterexamples.
`contentA` and `contentA2` share a digest but have sizes 21 and 51;
`contentC` (size 21) is a near-duplicate of `contentA`.  Run 1
collects extraction results in the order `[a, a2, c]`, run 2 in the
order `[a2, a, c]`; the runs elect different bucket representatives
(`a.js` vs `a2.js`), and the pair `(a2.js, c.js)` dies in the size
pre-filter (ratio `21/51 < 0.5`) while `(a.js, c.js)` scores
`103/105 ≥ 0.8`. -/

def corpus1 : List (String × List Char) :=
  [("a.js", contentA), ("a2.js", contentA2), ("c.js", contentC)]

def corpus2 : List (String × List Char) :=
  [("a2.js", contentA2), ("a.js", contentA), ("c.js", contentC)]

/-- The score of the pair `(a.js, c.js)` at `τ = 0.8`. -/
noncomputable def recAC : SimilarityResult :=
  { file1 := "a.js", file2 := "c.js"
    overall_similarity := 103/105, structural_similarity := 1
    content_similarity := ((20/21 : ℚ) : ℝ)
    function_similarity := ((1 : ℚ) : ℝ)
    variable_similarity := ((1 : ℚ) : ℝ)
    is_duplicate := true
    similarity_reasons := ["content highly similar", "structure highly similar",
      "function names overlap", "variable names overlap"] }

theorem calcAC : calculate_similarity_pair "a.js" "c.js" (some featA) (some featC) (8/10) =
    some recAC := by
  rw [calcPair_score "a.js" "c.js" featA featC (8/10) (20/21) 1 1 1 (103/105)
    (by with_unfolding_all decide) (by with_unfolding_all decide)
    (by with_unfolding_all decide)
    (structSim_eq_counts featA featC (by with_unfolding_all decide)
      (by with_unfolding_all decide) (by with_unfolding_all decide))
    (by with_unfolding_all decide) (by with_unfolding_all decide)
    (by push_cast; norm_num) (by push_cast; norm_num)]
  rw [decide_eq_true (show ((8/10 : ℚ) : ℝ) ≤ 103/105 by push_cast; norm_num)]
  rw [if_pos (show (9/10 : ℚ) < 20/21 by norm_num)]
  rw [if_pos (show (9/10 : ℝ) < 1 by norm_num)]
  rw [if_pos (show (8/10 : ℚ) < 1 by norm_num)]
  rw [if_pos (show (8/10 : ℚ) < 1 by norm_num)]
  rfl

theorem calcA2C :
    calculate_similarity_pair "a2.js" "c.js" (some featA2) (some featC) (8/10) = none :=
  calcPair_size_filtered "a2.js" "c.js" featA2 featC (8/10)
    (by with_unfolding_all decide) (by with_unfolding_all decide)

theorem filterMap_singleton {α β : Type} (f : α → Option β) (a : α) (b : β)
    (h : f a = some b) : List.filterMap f [a] = [b] := by
  simp [h]

theorem filterMap_singleton_none {α β : Type} (f : α → Option β) (a : α)
    (h : f a = none) : List.filterMap f [a] = [] := by
  simp [h]

theorem uf1_eval : uniqueFiles (featuresDict corpus1) = ["a.js", "c.js"] := by
  with_unfolding_all decide

theorem uf2_eval : uniqueFiles (featuresDict corpus2) = ["a2.js", "c.js"] := by
  with_unfolding_all decide

theorem lookup1a : lookupFeatures (featuresDict corpus1) "a.js" = some featA := by
  with_unfolding_all decide

theorem lookup1c : lookupFeatures (featuresDict corpus1) "c.js" = some featC := by
  with_unfolding_all decide

theorem lookup2a2 : lookupFeatures (featuresDict corpus2) "a2.js" = some featA2 := by
  with_unfolding_all decide

theorem lookup2c : lookupFeatures (featuresDict corpus2) "c.js" = some featC := by
  with_unfolding_all decide

theorem sr1_eval : similarityResults (featuresDict corpus1) (8/10) = [recAC] := by
  unfold similarityResults
  rw [uf1_eval]
  show List.filterMap (fun pq => calculate_similarity_pair pq.1 pq.2
    (lookupFeatures (featuresDict corpus1) pq.1)
    (lookupFeatures (featuresDict corpus1) pq.2) (8/10)) [("a.js", "c.js")] = [recAC]
  refine filterMap_singleton _ _ _ ?_
  show calculate_similarity_pair "a.js" "c.js"
    (lookupFeatures (featuresDict corpus1) "a.js")
    (lookupFeatures (featuresDict corpus1) "c.js") (8/10) = some recAC
  rw [lookup1a, lookup1c, calcAC]

theorem sr2_eval : similarityResults (featuresDict corpus2) (8/10) = [] := by
  unfold similarityResults
  rw [uf2_eval]
  show List.filterMap (fun pq => calculate_similarity_pair pq.1 pq.2
    (lookupFeatures (featuresDict corpus2) pq.1)
    (lookupFeatures (featuresDict corpus2) pq.2) (8/10)) [("a2.js", "c.js")] = []
  refine filterMap_singleton_none _ _ ?_
  show calculate_similarity_pair "a2.js" "c.js"
    (lookupFeatures (featuresDict corpus2) "a2.js")
    (lookupFeatures (featuresDict corpus2) "c.js") (8/10) = none
  rw [lookup2a2, lookup2c, calcA2C]

theorem sg1_eval : similarGroups (featuresDict corpus1) (8/10) = [["a.js", "c.js"]] := by
  unfold similarGroups
  rw [sr1_eval, uf1_eval]
  with_unfolding_all decide

theorem sg2_eval : similarGroups (featuresDict corpus2) (8/10) = [] := by
  unfold similarGroups
  rw [sr2_eval, uf2_eval]
  with_unfolding_all decide

/-- C8, counterexample to the claim as stated: the same corpus with
the same threshold and pool size, under two possible `as_completed`
collection orders, produces different similar-group memberships (one
run finds the near-duplicate cluster `{a.js, c.js}`, the other finds
none), because the second run represents the digest bucket
`{a.js, a2.js}` by the whitespace-padded `a2.js`, whose size ratio
against `c.js` fails the pre-filter. -/
theorem C8_determinism_counterexample :
    corpus1.Perm corpus2 ∧
    ((similarGroups (featuresDict corpus1) (8/10)).map List.toFinset).toFinset ≠
      ((similarGroups (featuresDict corpus2) (8/10)).map List.toFinset).toFinset := by
  refine ⟨by with_unfolding_all decide, ?_⟩
  rw [sg1_eval, sg2_eval]
  with_unfolding_all decide

/-- Witness for the amended C8 at the two concrete collection
orders. -/
theorem C8_exact_groups_invariant_witness :
    (featuresDict corpus1).Perm (featuresDict corpus2) ∧
    ((exactDuplicateGroups (featuresDict corpus1)).map List.toFinset).toFinset =
      ((exactDuplicateGroups (featuresDict corpus2)).map List.toFinset).toFinset :=
  ⟨by with_unfolding_all decide,
    C8_exact_groups_invariant _ _ (by with_unfolding_all decide)⟩

/-! ### C9: partition coverage of the output -/

/-- In a pair list whose values are duplicate-free, a value determines
its key. -/
theorem value_unique_key {α β : Type} (l : List (α × β))
    (hnd : (l.map Prod.snd).Nodup) {k1 k2 : α} {v : β}
    (h1 : (k1, v) ∈ l) (h2 : (k2, v) ∈ l) : k1 = k2 := by
  induction l with
  | nil => cases h1
  | cons p rest ih =>
    rw [List.map_cons, List.nodup_cons] at hnd
    rcases List.mem_cons.mp h1 with he1 | h1'
    · rcases List.mem_cons.mp h2 with he2 | h2'
      · exact (Prod.ext_iff.mp (he1.trans he2.symm)).1
      · refine absurd ?_ hnd.1
        rw [← he1]
        show v ∈ rest.map Prod.snd
        exact List.mem_map_of_mem _ h2'
    · rcases List.mem_cons.mp h2 with he2 | h2'
      · refine absurd ?_ hnd.1
        rw [← he2]
        show v ∈ rest.map Prod.snd
        exact List.mem_map_of_mem _ h1'
      · exact ih hnd.2 h1' h2'

/-- Buckets of an insertion-ordered grouping are pairwise disjoint
whenever a value determines its key. -/
theorem groupPairs_pairwise_disjoint {α β : Type} [DecidableEq α] (l : List (α × β))
    (hkey : ∀ k1 k2 v, (k1, v) ∈ l → (k2, v) ∈ l → k1 = k2) :
    ((groupPairs l).map Prod.snd).Pairwise (fun g1 g2 => ∀ v, v ∈ g1 → v ∉ g2) := by
  unfold groupPairs
  rw [List.map_map]
  have hfun : (Prod.snd ∘ fun k => (k, (l.filter (fun p => p.1 = k)).map Prod.snd)) =
      fun k => (l.filter (fun p => p.1 = k)).map Prod.snd := rfl
  rw [hfun]
  refine List.Pairwise.map _ ?_ (dedupFirst_nodup (l.map Prod.fst))
  intro k1 k2 hne v hv1 hv2
  rcases List.mem_map.mp hv1 with ⟨p1, hp1, hv1e⟩
  rcases List.mem_map.mp hv2 with ⟨p2, hp2, hv2e⟩
  have hm1 := List.mem_filter.mp hp1
  have hm2 := List.mem_filter.mp hp2
  have hk1 : p1.1 = k1 := by simpa using hm1.2
  have hk2 : p2.1 = k2 := by simpa using hm2.2
  refine hne ?_
  have e1 : (k1, v) ∈ l := by
    have hp : p1 = (k1, v) := by
      rw [← hk1, ← hv1e]
    rw [← hp]
    exact hm1.1
  have e2 : (k2, v) ∈ l := by
    have hp : p2 = (k2, v) := by
      rw [← hk2, ← hv2e]
    rw [← hp]
    exact hm2.1
  exact hkey k1 k2 v e1 e2

/-- The paths that survive extraction are a sublist of the discovered
paths. -/
theorem featuresDict_keys_sublist (files : List (String × List Char)) :
    ((featuresDict files).map Prod.fst).Sublist (files.map Prod.fst) := by
  induction files with
  | nil => simp [featuresDict]
  | cons pc rest ih =>
    simp only [featuresDict, List.filterMap_cons] at ih ⊢
    cases h : (extract_file_features pc.2).map (fun f => (pc.1, f)) with
    | none =>
      rw [List.map_cons]
      exact ih.cons _
    | some pf =>
      rcases Option.map_eq_some'.mp h with ⟨f, _, rfl⟩
      rw [List.map_cons, List.map_cons]
      exact ih.cons₂ _

/-- Membership in the `unique/` destination. -/
theorem mem_uniqueOutput_iff (all_files : List String)
    (exact_groups similar_groups : List (List String)) (f : String) :
    f ∈ uniqueOutput all_files exact_groups similar_groups ↔
      f ∈ all_files ∧ f ∉ (exact_groups ++ similar_groups).flatten := by
  unfold uniqueOutput allDuplicates
  rw [List.mem_filter]
  simp

/-- The similar groups are pairwise disjoint for any result list. -/
theorem buildSimilarityGroups_pairwise (results : List SimilarityResult)
    (uf : List String) :
    (buildSimilarityGroups results uf).Pairwise (fun g1 g2 => ∀ p, p ∈ g1 → p ∉ g2) := by
  simp only [buildSimilarityGroups]
  refine List.Pairwise.sublist (List.filter_sublist _) ?_
  refine groupPairs_pairwise_disjoint _ ?_
  intro k1 k2 v h1 h2
  rcases List.mem_map.mp h1 with ⟨f1, _, he1⟩
  rcases List.mem_map.mp h2 with ⟨f2, _, he2⟩
  injection he1 with a1 b1
  injection he2 with a2 b2
  rw [← a1, ← a2, b1, b2]

/-- C9, amended: every discovered document lands in the `unique/`
bucket or in at least one group folder; the `unique/` bucket is
disjoint from all group folders; the exact-duplicate groups are
pairwise disjoint; and the similar groups are pairwise disjoint.  The
partitions are however NOT mutually exclusive: the representative of
an exact-duplicate group also joins a similar group when it is
duplicate-classified against another candidate (see the
counterexample), so "exactly one" fails. -/
theorem C9_partition_amended (files : List (String × List Char)) (threshold : ℚ)
    (hnodup : (files.map Prod.fst).Nodup) :
    (∀ f ∈ files.map Prod.fst,
      f ∈ uniqueOutput (files.map Prod.fst) (exactDuplicateGroups (featuresDict files))
          (similarGroups (featuresDict files) threshold) ∨
      f ∈ (exactDuplicateGroups (featuresDict files) ++
          similarGroups (featuresDict files) threshold).flatten) ∧
    (∀ f ∈ uniqueOutput (files.map Prod.fst) (exactDuplicateGroups (featuresDict files))
        (similarGroups (featuresDict files) threshold),
      f ∉ (exactDuplicateGroups (featuresDict files) ++
          similarGroups (featuresDict files) threshold).flatten) ∧
    (exactDuplicateGroups (featuresDict files)).Pairwise
      (fun g1 g2 => ∀ p, p ∈ g1 → p ∉ g2) ∧
    (similarGroups (featuresDict files) threshold).Pairwise
      (fun g1 g2 => ∀ p, p ∈ g1 → p ∉ g2) := by
  refine ⟨?_, ?_, ?_, ?_⟩
  · intro f hf
    by_cases hd : f ∈ (exactDuplicateGroups (featuresDict files) ++
        similarGroups (featuresDict files) threshold).flatten
    · exact Or.inr hd
    · exact Or.inl ((mem_uniqueOutput_iff _ _ _ f).mpr ⟨hf, hd⟩)
  · intro f hf
    exact ((mem_uniqueOutput_iff _ _ _ f).mp hf).2
  · unfold exactDuplicateGroups
    refine List.Pairwise.sublist (List.filter_sublist _) ?_
    refine groupPairs_pairwise_disjoint _ ?_
    intro k1 k2 v h1 h2
    refine value_unique_key _ ?_ h1 h2
    rw [List.map_map]
    exact (featuresDict_keys_sublist files).nodup hnodup
  · exact buildSimilarityGroups_pairwise _ _

theorem eg1_eval : exactDuplicateGroups (featuresDict corpus1) = [["a.js", "a2.js"]] := by
  with_unfolding_all decide

/-- C9, counterexample to the claim as stated: in run 1 of the
concrete corpus, `a.js` appears BOTH in the exact-duplicate group
`{a.js, a2.js}` (it is copied into `exact_duplicates/exact_group_1/`)
AND in the similar group `{a.js, c.js}` (it is copied into
`similar_groups/similar_group_1/`): one successfully-read document in
two output partitions. -/
theorem C9_partition_counterexample :
    exactDuplicateGroups (featuresDict corpus1) = [["a.js", "a2.js"]] ∧
    similarGroups (featuresDict corpus1) (8/10) = [["a.js", "c.js"]] ∧
    ("a.js" : String) ∈ (["a.js", "a2.js"] : List String) ∧
    ("a.js" : String) ∈ (["a.js", "c.js"] : List String) :=
  ⟨eg1_eval, sg1_eval, by decide, by decide⟩

/-- Witness for the amended C9 at the concrete corpus of run 1. -/
theorem C9_partition_amended_witness :
    (corpus1.map Prod.fst).Nodup ∧
    (exactDuplicateGroups (featuresDict corpus1)).Pairwise
      (fun g1 g2 => ∀ p, p ∈ g1 → p ∉ g2) :=
  ⟨by with_unfolding_all decide,
    (C9_partition_amended corpus1 (8/10) (by with_unfolding_all decide)).2.2.1⟩

end JsDedup
